import Mathlib

/-!
Verification development for the `hello` repository: a browser demo that
renders a 3D scene (textured cube, loaded GLTF model, floor, lights) with
three.js and plays procedural audio with Csound.

The definitions below are a shallow embedding of the repository's own glue
code.  DOM, WebGL and the audio engine are opaque collaborators: their
handles are represented by identifiers, the messages handed to them are
recorded explicitly, and JavaScript exceptions are represented by an
explicit `threw` flag or an `Except` result so that catch-all handlers are
visible in the types.  Machine floats of the source are modelled by `ℚ`
(every constant in the source is a small decimal literal).

Sources embedded:
  * `src/unnamed/part_000` (class `App`): animation state, click/keydown
    handlers, resource registry, `dispose`, `loadModel` and fallback model.
  * `src/src/main.basic.csound.ts` (class `AudioApp`): audio engine
    startup, retry button, `playSound`.
  * `src/src/main.ts.audio_only`: `handleClick` sound playback.
  * `src/csound/synth.csd`: `instr 1`.
-/

/-- Component-wise 3D vector over `ℚ`, standing in for `THREE.Vector3`. -/
structure Vec3 where
  x : ℚ
  y : ℚ
  z : ℚ
deriving DecidableEq, Repr

/-- `Vector3.add`: component-wise addition, as used by `camera.position.add`. -/
def Vec3.add (a b : Vec3) : Vec3 :=
  ⟨a.x + b.x, a.y + b.y, a.z + b.z⟩

/-- The `AnimationState` interface of `part_000`: two booleans. -/
structure AnimationState where
  cubeRotating : Bool
  modelScaling : Bool
deriving DecidableEq, Repr

/-- A material handle: its identity plus the identity of its texture map,
when it has one (`material.map` in the source). -/
structure MaterialH where
  id : Nat
  map : Option Nat
deriving DecidableEq, Repr

/-- The `ResourceManager` interface of `part_000`: arrays of texture,
geometry and material handles kept so they can be released together. -/
structure ResourceManager where
  textures : List Nat
  geometries : List Nat
  materials : List MaterialH
deriving DecidableEq, Repr

/-- The two timer callbacks scheduled with `setTimeout(..., 5000)` by
`startCubeRotation` and `startModelScale`. -/
inductive TimerAction where
  | stopCubeRotation
  | stopModelScale
deriving DecidableEq, Repr

/-- A scheduled `setTimeout` callback: absolute fire time (ms) and action. -/
structure Timeout where
  fireAt : Nat
  action : TimerAction
deriving DecidableEq, Repr

/-- A mesh present in the scene graph: its geometry handle, the material
handles attached to it, and its position.  Used to model `scene.traverse`
in `clearScene` and the placement of the fallback model. -/
structure SceneMesh where
  geomId : Nat
  matIds : List Nat
  position : Vec3
deriving DecidableEq, Repr

/-- The observable content of a loaded `gltf.scene`: the geometry handles of
its meshes (one per `THREE.Mesh` found by `traverse`) and the length of its
bounding-box size vector after placement. -/
structure GltfScene where
  meshGeomIds : List Nat
  sizeLen : ℚ
deriving DecidableEq, Repr

/-- State of the `App` class of `part_000` that the embedded handlers read
or write.  `csound` records whether the audio engine handle is set, `pending`
the outstanding `setTimeout` callbacks, `logs` the error-handler log. -/
structure App where
  animationState : AnimationState
  disposed : Bool
  csound : Bool
  cameraPosition : Vec3
  cubeRotation : Vec3
  modelScale : ℚ
  model : Option GltfScene
  resourceManager : ResourceManager
  sceneMeshes : List SceneMesh
  pending : List Timeout
  nextId : Nat
  logs : List String
deriving DecidableEq, Repr

/-- `resetAnimations` of `part_000`: clears both flags, resets the cube
rotation, and resets the model scale to 3 when a model is loaded. -/
def resetAnimations (s : App) : App :=
  { s with
    animationState := ⟨false, false⟩
    cubeRotation := ⟨0, 0, 0⟩
    modelScale := if s.model.isSome then 3 else s.modelScale }

/-- `startCubeRotation` of `part_000`: sets `cubeRotating` and schedules one
timer 5000 ms from now that will clear it. -/
def startCubeRotation (now : Nat) (s : App) : App :=
  { s with
    animationState := { s.animationState with cubeRotating := true }
    pending := s.pending ++ [⟨now + 5000, TimerAction.stopCubeRotation⟩] }

/-- `startModelScale` of `part_000`: sets `modelScaling` and schedules one
timer 5000 ms from now that will clear it. -/
def startModelScale (now : Nat) (s : App) : App :=
  { s with
    animationState := { s.animationState with modelScaling := true }
    pending := s.pending ++ [⟨now + 5000, TimerAction.stopModelScale⟩] }

/-- Firing of a scheduled timer callback.  Both callbacks check
`!this.disposed` before clearing their flag. -/
def runTimeout (a : TimerAction) (s : App) : App :=
  match a with
  | TimerAction.stopCubeRotation =>
      if s.disposed then s
      else { s with animationState := { s.animationState with cubeRotating := false } }
  | TimerAction.stopModelScale =>
      if s.disposed then s
      else { s with animationState := { s.animationState with modelScaling := false } }

/-- What a raycast intersection's `object` can be, relative to the handler's
identity tests: the cube, the loaded model root, or anything else. -/
inductive ObjRef where
  | cube
  | model
  | other
deriving DecidableEq, Repr

/-- A score message handed to `csound.inputMessage`, i.e. the fields of the
string `i <instr> <start> <dur> <amp> <freq>`. -/
structure ScoreMsg where
  instr : ℚ
  start : ℚ
  dur : ℚ
  amp : ℚ
  freq : ℚ
deriving DecidableEq, Repr

/-- `handleClick` of `part_000` / `main.ts.bak2`, given the raycaster's
intersection list (nearest first).  Only `intersects[0].object` is examined:
the cube starts the rotation animation and plays a Csound event (the inline
`inputMessage('i 1 0 5 0.3 220')` of `main.ts.bak2`, guarded by the engine
handle); the model root, when a model is loaded, starts the scaling
animation; anything else does nothing. -/
def handleClick (now : Nat) (intersects : List ObjRef) (s : App) :
    App × List ScoreMsg :=
  match intersects with
  | [] => (s, [])
  | o :: _ =>
    match o with
    | ObjRef.cube =>
        (startCubeRotation now s,
         if s.csound then [⟨1, 0, 5, 3/10, 220⟩] else [])
    | ObjRef.model =>
        if s.model.isSome then (startModelScale now s, []) else (s, [])
    | ObjRef.other => (s, [])

/-- `handleKeyDown` of `part_000`, applied to the already lower-cased
`event.key`: builds a move vector per key (0.1 along one axis), lets the
Escape key reset the animations, and always adds the move vector to the
camera position. -/
def handleKeyDown (key : String) (s : App) : App :=
  let moveSpeed : ℚ := 1/10
  let md : Vec3 :=
    if key = "w" then ⟨0, 0, -moveSpeed⟩
    else if key = "s" then ⟨0, 0, moveSpeed⟩
    else if key = "a" then ⟨-moveSpeed, 0, 0⟩
    else if key = "d" then ⟨moveSpeed, 0, 0⟩
    else if key = "q" then ⟨0, moveSpeed, 0⟩
    else if key = "e" then ⟨0, -moveSpeed, 0⟩
    else ⟨0, 0, 0⟩
  let s1 := if key = "escape" then resetAnimations s else s
  { s1 with cameraPosition := Vec3.add s1.cameraPosition md }

/-- A single release performed during disposal: which kind of handle had its
`dispose()` method called, and which handle. -/
inductive ReleaseKind where
  | texture
  | geometry
  | material
  | renderer
deriving DecidableEq, Repr

/-- One `dispose()` call on a handle. -/
structure Release where
  kind : ReleaseKind
  id : Nat
deriving DecidableEq, Repr

/-- `disposeThreeJsResources` of `part_000`: disposes every registered
texture, geometry and material (for a material, first its `map` texture when
present, then the material itself), then the renderer, then every node of
the scene (`clearScene` disposes each mesh's geometry and materials again),
and finally resets the registry arrays and clears the scene. -/
def disposeThreeJsResources (s : App) : List Release × App :=
  let texRel := s.resourceManager.textures.map (fun t => Release.mk ReleaseKind.texture t)
  let geoRel := s.resourceManager.geometries.map (fun g => Release.mk ReleaseKind.geometry g)
  let matRel := s.resourceManager.materials.flatMap (fun m =>
    (match m.map with
     | some t => [Release.mk ReleaseKind.texture t]
     | none => []) ++ [Release.mk ReleaseKind.material m.id])
  let renRel := [Release.mk ReleaseKind.renderer 0]
  let sceneRel := s.sceneMeshes.flatMap (fun n =>
    Release.mk ReleaseKind.geometry n.geomId ::
      n.matIds.map (fun m => Release.mk ReleaseKind.material m))
  (texRel ++ geoRel ++ matRel ++ renRel ++ sceneRel,
   { s with resourceManager := ⟨[], [], []⟩, sceneMeshes := [] })

/-- `dispose` of `part_000`: a no-op when already disposed; otherwise sets
the flag, resets the animations, drops the audio engine handle, and runs
`disposeThreeJsResources`.  Returns the releases performed together with the
resulting state. -/
def dispose (s : App) : List Release × App :=
  if s.disposed then ([], s)
  else
    let s1 := resetAnimations { s with disposed := true }
    disposeThreeJsResources { s1 with csound := false }

/-- `createErrorModel` of `part_000`: creates a fresh wireframe sphere
(geometry and basic material handles), places it at `(-2, 1, 0)` — the
position the loaded model would occupy — adds it to the scene and registers
both handles in the resource registry. -/
def createErrorModel (s : App) : App :=
  let g := s.nextId
  let m := s.nextId + 1
  { s with
    sceneMeshes := s.sceneMeshes ++ [⟨g, [m], ⟨-2, 1, 0⟩⟩]
    resourceManager := { s.resourceManager with
      geometries := s.resourceManager.geometries ++ [g]
      materials := s.resourceManager.materials ++ [⟨m, none⟩] }
    nextId := s.nextId + 2 }

/-- The per-mesh part of `setupLoadedModel` (`model.traverse` plus
`setupModelMesh`): for each mesh of the loaded model a fresh red standard
material is created and registered, the mesh geometry is registered, and the
mesh (now carrying the fresh material) is collected for the scene. -/
def setupMeshes : List Nat → App → App × List SceneMesh
  | [], s => (s, [])
  | gid :: rest, s =>
    let mid := s.nextId
    let s1 := { s with
      resourceManager := { s.resourceManager with
        materials := s.resourceManager.materials ++ [⟨mid, none⟩]
        geometries := s.resourceManager.geometries ++ [gid] }
      nextId := s.nextId + 1 }
    let r := setupMeshes rest s1
    (r.1, ⟨gid, [mid], ⟨-2, 1, 0⟩⟩ :: r.2)

/-- `setupLoadedModel` of `part_000`: traverses the model's meshes (setting
up and registering each), throws when no mesh was found, positions the model
at `(-2, 1, 0)` and scales it to 3, throws when its bounding box has zero
size, and otherwise adds the model to the scene.  Its own catch handler
turns either throw into `this.model = null` plus `createErrorModel`,
after logging via `handleError`. -/
def setupLoadedModel (s : App) : App :=
  match s.model with
  | none => s
  | some g =>
    let r := setupMeshes g.meshGeomIds s
    if g.meshGeomIds.length = 0 then
      createErrorModel
        { r.1 with model := none, logs := r.1.logs ++ ["No meshes found in loaded model"] }
    else
      let s2 := { r.1 with modelScale := 3 }
      if g.sizeLen = 0 then
        createErrorModel
          { s2 with model := none, logs := s2.logs ++ ["Model has zero dimensions"] }
      else
        { s2 with sceneMeshes := s2.sceneMeshes ++ r.2 }

/-- The try-block of `loadModel` of `part_000`: awaits the GLTF fetch (whose
outcome is the `fetch` argument — `Except.error` is a network/parse
rejection), stores `gltf.scene` in `this.model` and runs `setupLoadedModel`.
An `Except.error` result is an exception reaching `loadModel`'s catch. -/
def loadModelBody (fetch : Except String GltfScene) (s : App) :
    Except String App :=
  match fetch with
  | Except.error e => Except.error ("Failed to load model: " ++ e)
  | Except.ok g => Except.ok (setupLoadedModel { s with model := some g })

/-- `loadModel` of `part_000`: runs the try-block; its catch handler logs
the failure and builds the fallback model via `createErrorModel`. -/
def loadModel (fetch : Except String GltfScene) (s : App) : App :=
  match loadModelBody fetch s with
  | Except.ok s2 => s2
  | Except.error e => createErrorModel { s with logs := s.logs ++ [e] }

/-- `loadModel` seen from its caller as an async function: an
`Except.error` result would be a rejection propagating out of `loadModel`.
The catch handler converts every failure of the body into the fallback
state, so the result is always `Except.ok`. -/
def loadModelAsync (fetch : Except String GltfScene) (s : App) :
    Except String App :=
  match loadModelBody fetch s with
  | Except.ok s2 => Except.ok s2
  | Except.error e => Except.ok (createErrorModel { s with logs := s.logs ++ [e] })

/-- Whether the asynchronous model load fails: the fetch itself rejects, or
the loaded scene fails validation (no meshes, or zero bounding-box size). -/
def loadFails : Except String GltfScene → Bool
  | Except.error _ => true
  | Except.ok g => g.meshGeomIds.isEmpty || decide (g.sizeLen = 0)

/-- State of the `AudioApp` class of `main.basic.csound.ts`: the audio
engine handle, the `isInitialized` flag, the retry buttons currently in the
document (identity and label), a counter for fresh button identities, and
the console-error log. -/
structure AudioApp where
  csound : Bool
  isInitialized : Bool
  buttons : List (Nat × String)
  nextBtnId : Nat
  logs : List String
deriving DecidableEq, Repr

/-- Result of one async method of `AudioApp`: the state after it, the score
messages handed to `csound.inputMessage` during it, and whether it ended by
throwing (a rejected promise). -/
structure AOut where
  state : AudioApp
  sent : List ScoreMsg
  threw : Bool
deriving DecidableEq, Repr

/-- `playSound` of `main.basic.csound.ts`: returns silently when the engine
handle is null; otherwise sends `i 1 0 2 0.5 f` with
`f = 220 + Math.random() * 660` (the random draw is the argument `r`).
The uncaught `inputMessage` rejection is the only way it can throw, after
the message has been handed over (`engineFails` is that oracle). -/
def playSound (engineFails : Bool) (r : ℚ) (s : AudioApp) : AOut :=
  if s.csound = false then ⟨s, [], false⟩
  else ⟨s, [⟨1, 0, 2, 1/2, 220 + 660 * r⟩], engineFails⟩

/-- `createRetryButton` of `main.basic.csound.ts`: appends a fresh button
labelled `Retry Audio Initialization` to the document body. -/
def createRetryButton (s : AudioApp) : AudioApp :=
  { s with
    buttons := s.buttons ++ [(s.nextBtnId, "Retry Audio Initialization")]
    nextBtnId := s.nextBtnId + 1 }

/-- `initializeAudio` of `main.basic.csound.ts`: creates the engine, sets
options, compiles the embedded CSD and starts the engine (`ok = false`
means one of those engine calls rejected, before any message is sent), then
plays one test sound via `playSound`, and only then sets `isInitialized`. -/
def initAudioEngine (ok engineFails : Bool) (r : ℚ) (s : AudioApp) : AOut :=
  if ok = false then ⟨s, [], true⟩
  else
    let p := playSound engineFails r { s with csound := true }
    if p.threw then p
    else ⟨{ p.state with isInitialized := true }, p.sent, false⟩

/-- `initialize` of `main.basic.csound.ts`: runs `initializeAudio` (and on
success the click-handler registration); its catch handler logs the error
and creates a retry button.  It never rethrows. -/
def initApp (ok engineFails : Bool) (r : ℚ) (s : AudioApp) : AOut :=
  let a := initAudioEngine ok engineFails r s
  if a.threw then
    ⟨createRetryButton
        { a.state with logs := a.state.logs ++ ["Audio initialization failed"] },
      a.sent, false⟩
  else a

/-- `button.remove()`: drops the button with the given identity. -/
def removeButton (i : Nat) (s : AudioApp) : AudioApp :=
  { s with buttons := s.buttons.filter (fun b => b.1 != i) }

/-- `button.textContent = label` on the button with the given identity. -/
def setButtonLabel (i : Nat) (lbl : String) (s : AudioApp) : AudioApp :=
  { s with buttons := s.buttons.map (fun b => if b.1 = i then (b.1, lbl) else b) }

/-- The `onclick` handler of the retry button in `main.basic.csound.ts`:
awaits `this.initialize()` and removes the clicked button; were that await
to reject, the clicked button's label would change to `Failed - Try again`
instead. -/
def retryButtonClick (i : Nat) (ok engineFails : Bool) (r : ℚ)
    (s : AudioApp) : AOut :=
  let a := initApp ok engineFails r s
  if a.threw then ⟨setButtonLabel i "Failed - Try again" a.state, a.sent, false⟩
  else ⟨removeButton i a.state, a.sent, false⟩

/-- `handleClick` of `main.ts.audio_only`: warns and returns when the engine
handle is null; otherwise sends the same `i 1 0 2 0.5 f` score event inside
a try/catch that logs a rejected `inputMessage` instead of rethrowing. -/
def handleClickAudioOnly (engineFails : Bool) (r : ℚ) (s : AudioApp) : AOut :=
  if s.csound = false then
    ⟨{ s with logs := s.logs ++ ["Csound not initialized"] }, [], false⟩
  else
    ⟨(if engineFails then { s with logs := s.logs ++ ["sound-playback error"] } else s),
      [⟨1, 0, 2, 1/2, 220 + 660 * r⟩], false⟩

/-- The externally triggered events of `main.basic.csound.ts`: the page
load (which runs `new AudioApp()`, i.e. `initialize`), a document click
(the listener plays a sound only when `isInitialized`), and a click on a
retry button.  Each event carries the outcomes of the engine calls it makes
and the `Math.random()` draw it consumes. -/
inductive AEvent where
  | pageLoad (ok engineFails : Bool) (r : ℚ)
  | docClick (engineFails : Bool) (r : ℚ)
  | retryClick (i : Nat) (ok engineFails : Bool) (r : ℚ)
deriving DecidableEq, Repr

/-- Effect of one event on the `AudioApp` state, with the messages it sends
to the engine. -/
def stepEvent : AEvent → AudioApp → AudioApp × List ScoreMsg
  | AEvent.pageLoad ok ef r, s =>
      let a := initApp ok ef r s
      (a.state, a.sent)
  | AEvent.docClick ef r, s =>
      if s.isInitialized then
        let p := playSound ef r s
        (p.state, p.sent)
      else (s, [])
  | AEvent.retryClick i ok ef r, s =>
      let a := retryButtonClick i ok ef r s
      (a.state, a.sent)

/-- Runs a list of events from a state, tagging every sent message with the
absolute index of the event that sent it (`i` is the index of the first
event of the list). -/
def runAudio : List AEvent → AudioApp → Nat → AudioApp × List (Nat × ScoreMsg)
  | [], s, _ => (s, [])
  | e :: es, s, i =>
    let step := stepEvent e s
    let rest := runAudio es step.1 (i + 1)
    (rest.1, step.2.map (fun m => (i, m)) ++ rest.2)

/-- Whether an event is a user interaction (a click). -/
def isUserClick : AEvent → Bool
  | AEvent.pageLoad _ _ _ => false
  | AEvent.docClick _ _ => true
  | AEvent.retryClick _ _ _ _ => true

/-- Whether the event at index `j` of the trace is a user click. -/
def userClickAt (trace : List AEvent) (j : Nat) : Bool :=
  match trace.get? j with
  | some e => isUserClick e
  | none => false

/-- The state of `AudioApp` right after `new AudioApp()` allocates it:
null engine handle, not initialized, empty document. -/
def audioApp0 : AudioApp := ⟨false, false, [], 0, []⟩

/-- An `AudioApp` whose initialization has succeeded. -/
def audioApp1 : AudioApp := ⟨true, true, [], 0, []⟩

/-- The state after a page load whose audio initialization failed: one retry
button is in the document. -/
def c6App : AudioApp := (stepEvent (AEvent.pageLoad false false 0) audioApp0).1

/-- An idealized `poscil` table oscillator: amplitude times a periodic
table lookup at phase `freq * t`. -/
def poscil (table : ℚ → ℚ) (amp freq t : ℚ) : ℚ :=
  amp * table (freq * t)

/-- A stereo output sample, the two arguments of `outs`. -/
structure StereoOut where
  left : ℚ
  right : ℚ
deriving Repr

/-- `instr 1` of `src/csound/synth.csd`: three `poscil` oscillators at
`ifreq`, `ifreq * 1.5` and `ifreq * 2`, each with amplitude `iamp = p4`,
summed, scaled by `0.3`, and sent identically to both channels. -/
def instr1 (table : ℚ → ℚ) (p4 p5 t : ℚ) : StereoOut :=
  let iamp := p4
  let ifreq := p5
  let a1 := poscil table iamp ifreq t
  let a2 := poscil table iamp (ifreq * (3/2)) t
  let a3 := poscil table iamp (ifreq * 2) t
  let aout := (a1 + a2 + a3) * (3/10)
  ⟨aout, aout⟩

/-- An `App` state as the constructor of `part_000` leaves it before any
asset has loaded: camera at `(5, 5, 5)`, no model, empty registry. -/
def app0 : App :=
  { animationState := ⟨false, false⟩
    disposed := false
    csound := false
    cameraPosition := ⟨5, 5, 5⟩
    cubeRotation := ⟨0, 0, 0⟩
    modelScale := 1
    model := none
    resourceManager := ⟨[], [], []⟩
    sceneMeshes := []
    pending := []
    nextId := 0
    logs := [] }

/-- An `App` state with a loaded one-mesh model. -/
def appM : App := { app0 with model := some ⟨[5], 1⟩ }

/-- An `App` state mirroring the running demo at disposal time: texture 1 is
registered and is also the `map` of registered material 10; geometry 20 is
registered and is also the geometry of a mesh in the scene. -/
def c2App : App :=
  { animationState := ⟨false, false⟩
    disposed := false
    csound := true
    cameraPosition := ⟨5, 5, 5⟩
    cubeRotation := ⟨0, 0, 0⟩
    modelScale := 1
    model := none
    resourceManager := ⟨[1], [20], [⟨10, some 1⟩]⟩
    sceneMeshes := [⟨20, [10], ⟨2, 4, 2⟩⟩]
    pending := []
    nextId := 100
    logs := [] }

/-- Claim C7: for every keydown of a camera-movement key (w/s along z,
a/d along x, q/e along y), the only state changed is the camera position,
which moves by exactly the fixed speed 0.1 along the corresponding single
axis; scene objects, the animation-state booleans, and the resource registry
are unchanged by these keys. -/
theorem c7_camera_keys (s : App) :
    handleKeyDown "w" s = { s with cameraPosition := Vec3.add s.cameraPosition ⟨0, 0, -(1/10)⟩ } ∧
    handleKeyDown "s" s = { s with cameraPosition := Vec3.add s.cameraPosition ⟨0, 0, 1/10⟩ } ∧
    handleKeyDown "a" s = { s with cameraPosition := Vec3.add s.cameraPosition ⟨-(1/10), 0, 0⟩ } ∧
    handleKeyDown "d" s = { s with cameraPosition := Vec3.add s.cameraPosition ⟨1/10, 0, 0⟩ } ∧
    handleKeyDown "q" s = { s with cameraPosition := Vec3.add s.cameraPosition ⟨0, 1/10, 0⟩ } ∧
    handleKeyDown "e" s = { s with cameraPosition := Vec3.add s.cameraPosition ⟨0, -(1/10), 0⟩ } :=
  ⟨rfl, rfl, rfl, rfl, rfl, rfl⟩

/-- Claim C9: instrument 1 of the audio instrument definition outputs the
identical signal on the left and right stereo channels, and that signal is
the sum of three oscillators at frequencies `f`, `1.5 * f` and `2 * f`
(`f = p5`), each with amplitude `p4`, scaled by the constant 0.3. -/
theorem c9_instr1_stereo_sum (table : ℚ → ℚ) (p4 p5 t : ℚ) :
    (instr1 table p4 p5 t).left = (instr1 table p4 p5 t).right ∧
    (instr1 table p4 p5 t).left =
      (3/10) * (poscil table p4 p5 t + poscil table p4 ((3/2) * p5) t +
        poscil table p4 (2 * p5) t) := by
  constructor
  · rfl
  · have h1 : p5 * (3/2) * t = (3/2) * p5 * t := by ring
    have h2 : p5 * 2 * t = 2 * p5 * t := by ring
    simp only [instr1, poscil]
    rw [h1, h2]
    ring

/-- Claim C4: for every click that triggers sound playback while the audio
engine handle is set, the message sent to the engine is the score event
`i 1 0 2 0.5 f` where `f = 220 + 660 * r` for the random draw `r`, so
`220 <= f < 880` whenever `0 <= r < 1`. -/
theorem c4_click_sound_message (ef : Bool) (r : ℚ) (s : AudioApp)
    (hc : s.csound = true) (h0 : 0 ≤ r) (h1 : r < 1) :
    (playSound ef r s).sent = [⟨1, 0, 2, 1/2, 220 + 660 * r⟩] ∧
    (220 : ℚ) ≤ 220 + 660 * r ∧ 220 + 660 * r < 880 := by
  refine ⟨?_, ?_, ?_⟩
  · simp [playSound, hc]
  · linarith
  · linarith

/-- Concrete instance of `c4_click_sound_message` at `r = 1/2` with the
engine handle set. -/
theorem c4_witness :
    (AudioApp.mk true false [] 0 []).csound = true ∧ (0 : ℚ) ≤ 1/2 ∧ (1/2 : ℚ) < 1 ∧
    ((playSound false (1/2) (AudioApp.mk true false [] 0 [])).sent =
        [⟨1, 0, 2, 1/2, 220 + 660 * (1/2)⟩] ∧
      (220 : ℚ) ≤ 220 + 660 * (1/2) ∧ (220 : ℚ) + 660 * (1/2) < 880) :=
  ⟨rfl, by norm_num, by norm_num,
    c4_click_sound_message false (1/2) (AudioApp.mk true false [] 0 []) rfl
      (by norm_num) (by norm_num)⟩

/-- Claim C8: when the audio engine handle is null, a click's
`playSound` (`main.basic.csound.ts`) or `handleClick`
(`main.ts.audio_only`) call returns without sending any message to the
engine and without throwing, whatever the engine oracle and random draw. -/
theorem c8_playSound_null_engine (ef : Bool) (r : ℚ) (s : AudioApp)
    (h : s.csound = false) :
    playSound ef r s = ⟨s, [], false⟩ ∧
    (handleClickAudioOnly ef r s).sent = [] ∧
    (handleClickAudioOnly ef r s).threw = false := by
  refine ⟨?_, ?_, ?_⟩ <;> simp [playSound, handleClickAudioOnly, h]

/-- Concrete instance of `c8_playSound_null_engine` on the freshly
constructed `AudioApp`. -/
theorem c8_witness :
    audioApp0.csound = false ∧
    (playSound true (1/2) audioApp0 = ⟨audioApp0, [], false⟩ ∧
      (handleClickAudioOnly true (1/2) audioApp0).sent = [] ∧
      (handleClickAudioOnly true (1/2) audioApp0).threw = false) :=
  ⟨rfl, c8_playSound_null_engine true (1/2) audioApp0 rfl⟩

/-- Claim C1: a click whose nearest intersection is the cube sets
`cubeRotating` and schedules a single timer, firing 5000 ms later, whose
callback clears the flag again; a click whose nearest intersection is the
loaded model does the same for `modelScaling`. -/
theorem c1_click_animation_timers (now : Nat) (rest : List ObjRef) (s : App)
    (hd : s.disposed = false) (hm : s.model.isSome = true) :
    ((handleClick now (ObjRef.cube :: rest) s).1.animationState.cubeRotating = true ∧
     (handleClick now (ObjRef.cube :: rest) s).1.pending =
       s.pending ++ [⟨now + 5000, TimerAction.stopCubeRotation⟩] ∧
     (runTimeout TimerAction.stopCubeRotation
         (handleClick now (ObjRef.cube :: rest) s).1).animationState.cubeRotating = false) ∧
    ((handleClick now (ObjRef.model :: rest) s).1.animationState.modelScaling = true ∧
     (handleClick now (ObjRef.model :: rest) s).1.pending =
       s.pending ++ [⟨now + 5000, TimerAction.stopModelScale⟩] ∧
     (runTimeout TimerAction.stopModelScale
         (handleClick now (ObjRef.model :: rest) s).1).animationState.modelScaling = false) := by
  constructor
  · refine ⟨?_, ?_, ?_⟩ <;> simp [handleClick, startCubeRotation, runTimeout, hd]
  · refine ⟨?_, ?_, ?_⟩ <;> simp [handleClick, startModelScale, runTimeout, hm, hd]

/-- Concrete instance of `c1_click_animation_timers` on an app with a
loaded model. -/
theorem c1_witness :
    appM.disposed = false ∧ appM.model.isSome = true ∧
    (handleClick 0 [ObjRef.cube] appM).1.animationState.cubeRotating = true :=
  ⟨rfl, rfl, (c1_click_animation_timers 0 [] appM rfl rfl).1.1⟩

/-- Claim C10: a single click starts at most one animation.  The click
handler only examines the nearest intersection; no click changes both
animation flags; and a click hitting neither the cube nor the model (or
nothing at all) leaves the animation state unchanged. -/
theorem c10_single_animation_per_click (now : Nat) (o : ObjRef)
    (rest : List ObjRef) (s : App) :
    handleClick now (o :: rest) s = handleClick now [o] s ∧
    (∀ intersects : List ObjRef,
      ¬(((handleClick now intersects s).1.animationState.cubeRotating ≠
          s.animationState.cubeRotating) ∧
        ((handleClick now intersects s).1.animationState.modelScaling ≠
          s.animationState.modelScaling))) ∧
    (o ≠ ObjRef.cube → o ≠ ObjRef.model →
      (handleClick now (o :: rest) s).1.animationState = s.animationState) ∧
    (handleClick now [] s).1.animationState = s.animationState := by
  refine ⟨?_, ?_, ?_, ?_⟩
  · cases o <;> rfl
  · intro intersects
    rintro ⟨h1, h2⟩
    match intersects with
    | [] => exact h1 rfl
    | ObjRef.cube :: r => exact h2 (by simp [handleClick, startCubeRotation])
    | ObjRef.model :: r =>
        cases hs : s.model.isSome <;>
          exact h1 (by simp [handleClick, hs, startModelScale])
    | ObjRef.other :: r => exact h1 rfl
  · intro h1 h2
    cases o
    · exact absurd rfl h1
    · exact absurd rfl h2
    · rfl
  · rfl

/-- Concrete instance of `c10_single_animation_per_click`: a click on an
object that is neither the cube nor the model changes nothing. -/
theorem c10_witness :
    (handleClick 0 [ObjRef.other] app0).1.animationState = app0.animationState :=
  (c10_single_animation_per_click 0 ObjRef.other [] app0).2.2.1
    (by decide) (by decide)

/-- Claim C2 fails as stated: in the concrete state `c2App` — mirroring the
running demo, where registered texture 1 is also the `map` of registered
material 10 — the first `dispose` call releases texture 1 twice (once in the
texture loop and once via `material.map.dispose()`), not exactly once. -/
theorem c2_counterexample :
    ¬(∀ s : App, s.disposed = false →
        ∀ t ∈ s.resourceManager.textures,
          (dispose s).1.count ⟨ReleaseKind.texture, t⟩ = 1) := by
  intro h
  have h1 := h c2App rfl 1 (by decide)
  have h2 : (dispose c2App).1.count ⟨ReleaseKind.texture, 1⟩ = 2 := by decide
  rw [h2] at h1
  exact absurd h1 (by decide)

/-- Claim C2, amended: the first call to `dispose` releases every handle
registered in the resource registry at least once (handles that are also
reachable as a material's texture map or through a scene mesh are released
more than once), empties the registry, and marks the app disposed; any
subsequent call to `dispose` performs no releases and leaves the state
unchanged. -/
theorem c2_dispose_release_registry (s : App) (hd : s.disposed = false) :
    (∀ t ∈ s.resourceManager.textures,
      1 ≤ (dispose s).1.count ⟨ReleaseKind.texture, t⟩) ∧
    (∀ g ∈ s.resourceManager.geometries,
      1 ≤ (dispose s).1.count ⟨ReleaseKind.geometry, g⟩) ∧
    (∀ m ∈ s.resourceManager.materials,
      1 ≤ (dispose s).1.count ⟨ReleaseKind.material, m.id⟩) ∧
    (dispose s).2.resourceManager = ⟨[], [], []⟩ ∧
    (dispose s).2.disposed = true ∧
    dispose (dispose s).2 = ([], (dispose s).2) := by
  refine ⟨?_, ?_, ?_, ?_, ?_, ?_⟩
  · intro t ht
    refine List.one_le_count_iff.mpr ?_
    simp [dispose, hd, disposeThreeJsResources, resetAnimations]
    exact Or.inl ht
  · intro g hg
    refine List.one_le_count_iff.mpr ?_
    simp [dispose, hd, disposeThreeJsResources, resetAnimations]
    exact Or.inl hg
  · intro m hm
    refine List.one_le_count_iff.mpr ?_
    simp [dispose, hd, disposeThreeJsResources, resetAnimations]
    exact Or.inl ⟨m, hm, Or.inr rfl⟩
  · simp [dispose, hd, disposeThreeJsResources, resetAnimations]
  · simp [dispose, hd, disposeThreeJsResources, resetAnimations]
  · simp [dispose, hd, disposeThreeJsResources, resetAnimations]

/-- Concrete instance of `c2_dispose_release_registry`: disposing `c2App`
twice performs no releases the second time. -/
theorem c2_witness :
    c2App.disposed = false ∧
    dispose (dispose c2App).2 = ([], (dispose c2App).2) :=
  ⟨rfl, (c2_dispose_release_registry c2App rfl).2.2.2.2.2⟩

/-- The mesh-registration pass of `setupLoadedModel` never touches the
error log. -/
theorem setupMeshes_logs : ∀ (gids : List Nat) (s : App),
    (setupMeshes gids s).1.logs = s.logs
  | [], _ => rfl
  | gid :: rest, s => by
      simp only [setupMeshes]
      exact setupMeshes_logs rest _

/-- `createErrorModel` always leaves the fallback sphere as the last scene
mesh, at the model position `(-2, 1, 0)`, with its geometry and material
registered, and does not log. -/
theorem createErrorModel_fallback (s : App) :
    ∃ gid mid,
      (createErrorModel s).sceneMeshes.getLast? = some ⟨gid, [mid], ⟨-2, 1, 0⟩⟩ ∧
      gid ∈ (createErrorModel s).resourceManager.geometries ∧
      MaterialH.mk mid none ∈ (createErrorModel s).resourceManager.materials ∧
      (createErrorModel s).logs = s.logs :=
  ⟨s.nextId, s.nextId + 1,
    by simp [createErrorModel, List.getLast?_concat],
    by simp [createErrorModel],
    by simp [createErrorModel],
    rfl⟩

/-- Claim C5: every failure of the asynchronous model fetch — a rejected
network fetch or a failed validation of the loaded scene (no meshes or a
zero-size bounding box) — is caught inside `loadModel`, logged exactly once,
and handled by adding the fallback placeholder (wireframe sphere) to the
scene at the model's position with its handles registered; the returned
result is always `Except.ok`, i.e. no failure propagates out of
`loadModel`. -/
theorem c5_load_failure_fallback (fetch : Except String GltfScene) (s : App) :
    (∃ s2, loadModelAsync fetch s = Except.ok s2) ∧
    (loadFails fetch = true →
      ∃ gid mid,
        (loadModel fetch s).sceneMeshes.getLast? = some ⟨gid, [mid], ⟨-2, 1, 0⟩⟩ ∧
        gid ∈ (loadModel fetch s).resourceManager.geometries ∧
        MaterialH.mk mid none ∈ (loadModel fetch s).resourceManager.materials ∧
        (loadModel fetch s).logs.length = s.logs.length + 1) := by
  constructor
  · cases fetch with
    | error e => exact ⟨_, rfl⟩
    | ok g => exact ⟨_, rfl⟩
  · intro hf
    cases fetch with
    | error e =>
        have hEq : loadModel (Except.error e) s =
            createErrorModel { s with logs := s.logs ++ ["Failed to load model: " ++ e] } := rfl
        rw [hEq]
        obtain ⟨gid, mid, h1, h2, h3, h4⟩ := createErrorModel_fallback _
        refine ⟨gid, mid, h1, h2, h3, ?_⟩
        rw [h4]
        simp
    | ok g =>
        simp only [loadFails, List.isEmpty_iff, Bool.or_eq_true, decide_eq_true_eq] at hf
        by_cases hL : g.meshGeomIds.length = 0
        · have hA : g.meshGeomIds = [] := List.length_eq_zero.mp hL
          have hEq : loadModel (Except.ok g) s =
              createErrorModel
                { s with
                  model := none
                  logs := s.logs ++ ["No meshes found in loaded model"] } := by
            simp [loadModel, loadModelBody, setupLoadedModel, hA, setupMeshes]
          rw [hEq]
          obtain ⟨gid, mid, h1, h2, h3, h4⟩ := createErrorModel_fallback _
          refine ⟨gid, mid, h1, h2, h3, ?_⟩
          rw [h4]
          simp
        · have hB : g.sizeLen = 0 := by
            rcases hf with hA | hB
            · exact absurd (by rw [hA]; rfl) hL
            · exact hB
          have hEq : loadModel (Except.ok g) s =
              createErrorModel
                { (setupMeshes g.meshGeomIds { s with model := some g }).1 with
                  modelScale := 3
                  model := none
                  logs := (setupMeshes g.meshGeomIds { s with model := some g }).1.logs ++
                    ["Model has zero dimensions"] } := by
            simp [loadModel, loadModelBody, setupLoadedModel, hL, hB]
          rw [hEq]
          obtain ⟨gid, mid, h1, h2, h3, h4⟩ := createErrorModel_fallback _
          refine ⟨gid, mid, h1, h2, h3, ?_⟩
          rw [h4]
          simp [setupMeshes_logs]

/-- Concrete instance of `c5_load_failure_fallback`: a rejected network
fetch on the fresh app state. -/
theorem c5_witness :
    loadFails (Except.error "network") = true ∧
    (∃ gid mid,
      (loadModel (Except.error "network") app0).sceneMeshes.getLast? =
        some ⟨gid, [mid], ⟨-2, 1, 0⟩⟩ ∧
      gid ∈ (loadModel (Except.error "network") app0).resourceManager.geometries ∧
      MaterialH.mk mid none ∈
        (loadModel (Except.error "network") app0).resourceManager.materials ∧
      (loadModel (Except.error "network") app0).logs.length = app0.logs.length + 1) :=
  ⟨rfl, (c5_load_failure_fallback (Except.error "network") app0).2 rfl⟩

/-- `initialize` of `main.basic.csound.ts` sends exactly one score message —
the test sound of a successful `initializeAudio` — and none on failure. -/
theorem initApp_sent (ok ef : Bool) (r : ℚ) (s : AudioApp) :
    (initApp ok ef r s).sent = if ok then [⟨1, 0, 2, 1/2, 220 + 660 * r⟩] else [] := by
  cases ok <;> cases ef <;> simp [initApp, initAudioEngine, playSound]

/-- Claim C3, amended: in every event trace, every score message sent to
the engine is sent either while handling a user click, or by a successful
audio-engine startup — which runs at page load, not on user interaction —
as its single test sound `i 1 0 2 0.5 (220 + 660 * r)`. -/
theorem c3_message_trigger (trace : List AEvent) (s : AudioApp) (i : Nat) :
    ∀ p ∈ (runAudio trace s i).2,
      i ≤ p.1 ∧ ∃ e, trace.get? (p.1 - i) = some e ∧
        (isUserClick e = true ∨
         ∃ ok ef r, e = AEvent.pageLoad ok ef r ∧ ok = true ∧
           p.2 = ⟨1, 0, 2, 1/2, 220 + 660 * r⟩) := by
  induction trace generalizing s i with
  | nil =>
      intro p hp
      simp [runAudio] at hp
  | cons e es ih =>
      intro p hp
      simp only [runAudio, List.mem_append] at hp
      rcases hp with hp | hp
      · obtain ⟨m, hm, rfl⟩ := List.mem_map.mp hp
        refine ⟨le_refl i, e, by simp, ?_⟩
        cases e with
        | pageLoad ok ef r =>
            right
            have hs : m ∈ (initApp ok ef r s).sent := by simpa [stepEvent] using hm
            rw [initApp_sent] at hs
            cases ok with
            | false => simp at hs
            | true =>
                rw [if_pos rfl] at hs
                exact ⟨true, ef, r, rfl, rfl, List.mem_singleton.mp hs⟩
        | docClick ef r => exact Or.inl rfl
        | retryClick j ok ef r => exact Or.inl rfl
      · obtain ⟨hle, e2, hget, hd⟩ := ih (stepEvent e s).1 (i + 1) p hp
        refine ⟨by omega, e2, ?_, hd⟩
        have hidx : p.1 - i = (p.1 - (i + 1)) + 1 := by omega
        rw [hidx, List.get?_cons_succ]
        exact hget

/-- Claim C3 fails as stated: the trace consisting of a single successful
page load — no user click at all — already sends a score message to the
engine, the test sound played by `initializeAudio` before
`isInitialized` is even set. -/
theorem c3_counterexample :
    ¬(∀ trace : List AEvent, ∀ p ∈ (runAudio trace audioApp0 0).2,
        ∃ j, j ≤ p.1 ∧ userClickAt trace j = true) := by
  intro h
  obtain ⟨j, hj, hc⟩ :=
    h [AEvent.pageLoad true false 0] (0, ⟨1, 0, 2, 1/2, 220 + 660 * 0⟩)
      (by rw [show (runAudio [AEvent.pageLoad true false 0] audioApp0 0).2 =
            [(0, ⟨1, 0, 2, 1/2, 220 + 660 * 0⟩)] from rfl]
          exact List.mem_singleton.mpr rfl)
  have hj0 : j = 0 := Nat.le_zero.mp hj
  subst hj0
  exact absurd hc (by decide)

/-- Concrete instance of `c3_message_trigger`: the message sent by a click
on the initialized app originates at that click. -/
theorem c3_witness :
    ((0, ScoreMsg.mk 1 0 2 (1/2) (220 + 660 * (1/2))) ∈
        (runAudio [AEvent.docClick false (1/2)] audioApp1 0).2) ∧
    ((0 : ℕ) ≤ 0 ∧ ∃ e, [AEvent.docClick false (1/2)].get? (0 - 0) = some e ∧
      (isUserClick e = true ∨
       ∃ ok ef r, e = AEvent.pageLoad ok ef r ∧ ok = true ∧
         ScoreMsg.mk 1 0 2 (1/2) (220 + 660 * (1/2)) = ⟨1, 0, 2, 1/2, 220 + 660 * r⟩)) :=
  ⟨by rw [show (runAudio [AEvent.docClick false (1/2)] audioApp1 0).2 =
        [(0, ScoreMsg.mk 1 0 2 (1/2) (220 + 660 * (1/2)))] from rfl]
      exact List.mem_singleton.mpr rfl,
    c3_message_trigger [AEvent.docClick false (1/2)] audioApp1 0
      (0, ScoreMsg.mk 1 0 2 (1/2) (220 + 660 * (1/2)))
      (by rw [show (runAudio [AEvent.docClick false (1/2)] audioApp1 0).2 =
            [(0, ScoreMsg.mk 1 0 2 (1/2) (220 + 660 * (1/2)))] from rfl]
          exact List.mem_singleton.mpr rfl)⟩

/-- Claim C6: `initialize` never rethrows (its catch handler swallows every
failure and creates a fresh retry button instead), so the retry button's
own catch branch — the one that would set the label `Failed - Try again` —
is unreachable.  Consequently, on a retry whose re-initialization fails,
the clicked button is removed and a new button with the original label
`Retry Audio Initialization` is appended, instead of the clicked button
staying with a changed label; on a successful retry the button is removed
and no button remains. -/
theorem c6_retry_click_behavior :
    (∀ (ok ef : Bool) (r : ℚ) (s : AudioApp), (initApp ok ef r s).threw = false) ∧
    (retryButtonClick 0 false false 0 c6App).state.buttons =
      [(1, "Retry Audio Initialization")] ∧
    (retryButtonClick 0 true false 0 c6App).state.buttons = [] := by
  refine ⟨?_, ?_, ?_⟩
  · intro ok ef r s
    cases ok <;> cases ef <;> simp [initApp, initAudioEngine, playSound]
  · rfl
  · rfl
